import Mathlib

/-!
Shallow embedding of the layout-and-event core of the `iced` fork, centred on
the `HoverArea` widget (`src/native/src/widget/hover_area.rs`), together with
the geometry and constraint primitives it consumes.  Coordinates are modelled
with `ℤ`: every constant on the analysed code paths is integral, and the `f32`
operations involved (addition, subtraction, `min`, `max`, comparisons) are
exact on such values.  Machine integers (`u16`, `u32`) are modelled with `Nat`
and coerced where the source converts to `f32`.
-/

namespace Iced

/-- A 2-D point (`iced_core::Point`), coordinates modelled with integers. -/
structure Point where
  x : ℤ
  y : ℤ
deriving DecidableEq

/-- A 2-D size (`iced_core::Size`). -/
structure Size where
  width : ℤ
  height : ℤ
deriving DecidableEq

/-- Modelled from the spec: `Size::pad` is missing from the analysed sources;
the spec states the padded wrap adds the padding symmetrically, i.e. twice per
axis ("the parent's resolved size equals the child's resolved size plus 2p per
axis"). -/
def Size.pad (s : Size) (p : ℤ) : Size :=
  { width := s.width + 2 * p, height := s.height + 2 * p }

/-- An axis-aligned rectangle (`iced_core::Rectangle`). -/
structure Rectangle where
  x : ℤ
  y : ℤ
  width : ℤ
  height : ℤ
deriving DecidableEq

/-- Modelled from the spec: `Rectangle::contains` is missing from the analysed
sources; hit-testing a point against the rectangle's bounds. -/
def Rectangle.contains (r : Rectangle) (p : Point) : Bool :=
  decide (r.x ≤ p.x) && decide (p.x ≤ r.x + r.width) &&
    decide (r.y ≤ p.y) && decide (p.y ≤ r.y + r.height)

/-- The sizing policy along one axis (`iced_core::Length`): fixed units,
fill remaining space, weighted fill, or shrink to content. -/
inductive Length where
  | Fill : Length
  | FillPortion (weight : Nat) : Length
  | Shrink : Length
  | Units (units : Nat) : Length
deriving DecidableEq

/-- Modelled from the spec: the structural hasher is an accumulator that widgets
fold attributes into; we model it as the stream of machine words written. -/
abbrev Hasher : Type := List Nat

/-- Modelled from the spec: the derived `Hash` of `Length` writes the variant
discriminant and any payload into the hasher. -/
def Length.feed : Length → List Nat
  | Length.Fill => [0]
  | Length.FillPortion w => [1, w]
  | Length.Shrink => [2]
  | Length.Units u => [3, u]

/-- Modelled from the spec: the constraint envelope a parent imposes during
layout — "attributes: min_width, max_width, min_height, max_height ...
min ≤ max must hold after every narrowing operation". -/
structure Limits where
  min_width : ℤ
  max_width : ℤ
  min_height : ℤ
  max_height : ℤ
deriving DecidableEq

/-- Modelled from the spec: `.min_width(n)` raises the floor (clamped so the
envelope never inverts). -/
def Limits.minWidth (l : Limits) (n : ℤ) : Limits :=
  { l with min_width := min (max l.min_width n) l.max_width }

/-- Modelled from the spec: `.min_height(n)` raises the floor (clamped so the
envelope never inverts). -/
def Limits.minHeight (l : Limits) (n : ℤ) : Limits :=
  { l with min_height := min (max l.min_height n) l.max_height }

/-- Modelled from the spec: `Limits::width(length)` narrows max (and, for
`Units`, also min) along the horizontal axis to respect the declared `Length`;
`Fill`, `FillPortion` and `Shrink` leave the envelope itself unchanged. -/
def Limits.width (l : Limits) (w : Length) : Limits :=
  match w with
  | Length.Units u =>
      let v := min (max (u : ℤ) l.min_width) l.max_width
      { l with min_width := v, max_width := v }
  | _ => l

/-- Modelled from the spec: `Limits::height(length)`, the vertical analogue of
`Limits::width`. -/
def Limits.height (l : Limits) (h : Length) : Limits :=
  match h with
  | Length.Units u =>
      let v := min (max (u : ℤ) l.min_height) l.max_height
      { l with min_height := v, max_height := v }
  | _ => l

/-- Modelled from the spec: `.pad(amount)` shrinks all four bounds by the
amount on each side (subtracted twice per axis), clamped so that nothing
underflows and min never exceeds max. -/
def Limits.pad (l : Limits) (p : ℤ) : Limits :=
  { min_width := min (max (l.min_width - 2 * p) 0) (max (l.max_width - 2 * p) 0)
    max_width := max (l.max_width - 2 * p) 0
    min_height := min (max (l.min_height - 2 * p) 0) (max (l.max_height - 2 * p) 0)
    max_height := max (l.max_height - 2 * p) 0 }

/-- Modelled from the spec: `.resolve(intrinsic_size)` clamps the content's
natural size into `[min, max]` per axis. -/
def Limits.resolve (l : Limits) (s : Size) : Size :=
  { width := min (max s.width l.min_width) l.max_width
    height := min (max s.height l.min_height) l.max_height }

/-- A layout node (`iced_native::layout::Node`): its own bounds relative to the
parent, plus positioned child nodes. -/
structure Node where
  bounds : Rectangle
  children : List Node

/-- The size of a node, read off its bounds. -/
def Node.size (n : Node) : Size :=
  { width := n.bounds.width, height := n.bounds.height }

/-- Modelled from the spec: `Node::with_children(size, children)` places the
node at the local origin with the given size. -/
def Node.with_children (s : Size) (cs : List Node) : Node :=
  { bounds := { x := 0, y := 0, width := s.width, height := s.height }
    children := cs }

/-- A `Layout` handle: a node viewed through an ambient parent offset. -/
structure Layout where
  position : Point
  node : Node

/-- Modelled from the spec: a layout is "queryable as absolute rectangles via
an ambient parent offset". -/
def Layout.bounds (l : Layout) : Rectangle :=
  { x := l.position.x + l.node.bounds.x
    y := l.position.y + l.node.bounds.y
    width := l.node.bounds.width
    height := l.node.bounds.height }

/-- An input event (`iced_native::Event`), an external notification; variants
modelled abstractly since only its presence matters to `HoverArea`. -/
inductive Event where
  | Mouse (payload : Nat) : Event
  | Keyboard (payload : Nat) : Event
  | Window (payload : Nat) : Event
deriving DecidableEq

/-- Modelled from the spec: the optional clipboard capability exposing "read
current clipboard text". -/
structure Clipboard where
  content : String

/-- The local state of a `HoverArea` (`hover_area::State`). -/
structure State where
  is_hovered : Bool
deriving DecidableEq

/-- `State::new` — the default state, not hovered. -/
def State.new : State :=
  { is_hovered := false }

/-- The child element a `HoverArea` wraps: its layout function (over a
renderer of type `ρ`) and its structural-hash contribution. -/
structure Element (ρ : Type) where
  layout : ρ → Limits → Node
  hash_layout : Hasher → Hasher

/-- The renderer collaborator of a `HoverArea`: its default-padding constant
and its default style (`hover_area::Renderer` trait). -/
structure RendererSpec (σ : Type) where
  DEFAULT_PADDING : Nat
  defaultStyle : σ

/-- The `HoverArea` widget record: local state, wrapped content, optional
on-hover message, sizing configuration and style
(`src/native/src/widget/hover_area.rs`). -/
structure HoverArea (M σ ρ : Type) where
  state : State
  content : Element ρ
  on_hover : Option M
  width : Length
  height : Length
  min_width : Nat
  min_height : Nat
  padding : Nat
  style : σ

/-- `HoverArea::new(state, content)`: all configuration at its defaults. -/
def HoverArea.new {M σ ρ : Type} (R : RendererSpec σ) (state : State)
    (content : Element ρ) : HoverArea M σ ρ :=
  { state := state
    content := content
    on_hover := none
    width := Length.Shrink
    height := Length.Shrink
    min_width := 0
    min_height := 0
    padding := R.DEFAULT_PADDING
    style := R.defaultStyle }

/-- `HoverArea::layout`: narrow the limits by the minimums, the declared
lengths and the padding, lay out the child, move it to `(padding, padding)`,
and wrap it in a node of the resolved, padded size. -/
def HoverArea.layout {M σ ρ : Type} (w : HoverArea M σ ρ) (renderer : ρ)
    (limits : Limits) : Node :=
  let padding : ℤ := (w.padding : ℤ)
  let limits' :=
    ((((limits.minWidth (w.min_width : ℤ)).minHeight (w.min_height : ℤ)).width
        w.width).height w.height).pad padding
  let content := w.content.layout renderer limits'
  let content' :=
    { content with
        bounds := { content.bounds with x := padding, y := padding } }
  let size := (limits'.resolve content.size).pad padding
  Node.with_children size [content']

/-- `HoverArea::on_event`: record whether the cursor is inside the bounds and,
on the rising edge only, push the configured on-hover message. -/
def HoverArea.on_event {M σ ρ : Type} (w : HoverArea M σ ρ) (_event : Event)
    (layout : Layout) (cursor_position : Point) (messages : List M)
    (_renderer : ρ) (_clipboard : Option Clipboard) :
    HoverArea M σ ρ × List M :=
  let bounds := layout.bounds
  let old_value := w.state.is_hovered
  let new_value := bounds.contains cursor_position
  let w' := { w with state := { is_hovered := new_value } }
  if new_value && (new_value != old_value) then
    match w.on_hover with
    | some on_hover => (w', messages ++ [on_hover])
    | none => (w', messages)
  else
    (w', messages)

/-- The arguments `HoverArea::draw` passes to `Renderer::draw`. -/
structure DrawCall (σ : Type) where
  bounds : Rectangle
  cursor_position : Point
  is_disabled : Bool
  is_hovered : Bool
  style : σ
  content_layout : Option Node

/-- `HoverArea::draw`: forward the bounds, the cursor, the disabled flag
(`on_hover.is_none()`), the hover state, the style and the child layout to the
renderer. -/
def HoverArea.draw {M σ ρ : Type} (w : HoverArea M σ ρ) (layout : Layout)
    (cursor_position : Point) : DrawCall σ :=
  { bounds := layout.bounds
    cursor_position := cursor_position
    is_disabled := w.on_hover.isNone
    is_hovered := w.state.is_hovered
    style := w.style
    content_layout := layout.node.children.head? }

/-- `HoverArea::hash_layout`: the source folds in the declared width and the
child's hash — and nothing else. -/
def HoverArea.hash_layout {M σ ρ : Type} (w : HoverArea M σ ρ)
    (state : Hasher) : Hasher :=
  w.content.hash_layout (state ++ w.width.feed)

end Iced

namespace Iced

/-- Helper: one `on_event` call sets `is_hovered` to the containment test and
appends the on-hover message exactly on the rising edge. -/
theorem on_event_eq {M σ ρ : Type} (w : HoverArea M σ ρ) (e : Event)
    (lay : Layout) (c : Point) (msgs : List M) (r : ρ)
    (clip : Option Clipboard) :
    w.on_event e lay c msgs r clip =
      ({ w with state := { is_hovered := lay.bounds.contains c } },
        msgs ++
          (if lay.bounds.contains c && !w.state.is_hovered
            then w.on_hover.toList else [])) := by
  cases h1 : lay.bounds.contains c <;>
    cases h2 : w.state.is_hovered <;>
      cases h3 : w.on_hover <;>
        simp [HoverArea.on_event, h1, h2, h3]

end Iced

namespace Iced

/-- A concrete fixed-size 100×50 child element, used for concrete instances. -/
def fixedChild : Element Unit :=
  { layout := fun _ _ => Node.with_children { width := 100, height := 50 } []
    hash_layout := fun h => h }

/-- A concrete hover-area configuration (padding 10, on-hover message `7`). -/
def sampleHover : HoverArea Nat Unit Unit :=
  { state := State.new
    content := fixedChild
    on_hover := some 7
    width := Length.Shrink
    height := Length.Shrink
    min_width := 0
    min_height := 0
    padding := 10
    style := () }

/-- A concrete layout handle whose bounds are the square (0,0)–(100,100). -/
def sampleLayout : Layout :=
  { position := { x := 0, y := 0 }
    node := Node.with_children { width := 100, height := 100 } [] }

/-- Claim C1: with an on-hover message configured and starting outside, the
cursor path [outside, inside, inside, outside, inside] appends exactly two
messages — one per outside-to-inside transition, none on the repeated inside
events, none on the inside-to-outside transition. -/
theorem hover_debounce {M σ ρ : Type} (w : HoverArea M σ ρ) (e : Event)
    (lay : Layout) (pOut pIn : Point) (m : M) (msgs : List M) (r : ρ)
    (clip : Option Clipboard)
    (hstate : w.state.is_hovered = false) (hcfg : w.on_hover = some m)
    (hout : lay.bounds.contains pOut = false)
    (hin : lay.bounds.contains pIn = true) :
    let s1 := w.on_event e lay pOut msgs r clip
    let s2 := s1.1.on_event e lay pIn s1.2 r clip
    let s3 := s2.1.on_event e lay pIn s2.2 r clip
    let s4 := s3.1.on_event e lay pOut s3.2 r clip
    let s5 := s4.1.on_event e lay pIn s4.2 r clip
    s1.2 = msgs ∧ s2.2 = msgs ++ [m] ∧ s3.2 = msgs ++ [m] ∧
      s4.2 = msgs ++ [m] ∧ s5.2 = msgs ++ [m, m] := by
  simp [on_event_eq, hstate, hcfg, hout, hin, Option.toList]

/-- Witness for C1: the square (0,0)–(100,100), cursor path
(200,200), (5,5), (5,5), (200,200), (5,5), message `7` emitted twice. -/
theorem hover_debounce_witness :
    let s1 := sampleHover.on_event (Event.Mouse 0) sampleLayout
      { x := 200, y := 200 } [] () none
    let s2 := s1.1.on_event (Event.Mouse 0) sampleLayout { x := 5, y := 5 }
      s1.2 () none
    let s3 := s2.1.on_event (Event.Mouse 0) sampleLayout { x := 5, y := 5 }
      s2.2 () none
    let s4 := s3.1.on_event (Event.Mouse 0) sampleLayout { x := 200, y := 200 }
      s3.2 () none
    let s5 := s4.1.on_event (Event.Mouse 0) sampleLayout { x := 5, y := 5 }
      s4.2 () none
    s1.2 = [] ∧ s2.2 = [7] ∧ s3.2 = [7] ∧ s4.2 = [7] ∧ s5.2 = [7, 7] :=
  hover_debounce sampleHover (Event.Mouse 0) sampleLayout
    { x := 200, y := 200 } { x := 5, y := 5 } 7 [] () none rfl rfl
    (by decide) (by decide)

/-- Claim C9: `on_event` ignores the event kind entirely; afterwards
`is_hovered` equals the containment test of the cursor against the layout
bounds, and at most one message is appended per call. -/
theorem on_event_ignores_event {M σ ρ : Type} (w : HoverArea M σ ρ)
    (e1 e2 : Event) (lay : Layout) (c : Point) (msgs : List M) (r : ρ)
    (clip : Option Clipboard) :
    w.on_event e1 lay c msgs r clip = w.on_event e2 lay c msgs r clip ∧
    (w.on_event e1 lay c msgs r clip).1.state.is_hovered =
      lay.bounds.contains c ∧
    (w.on_event e1 lay c msgs r clip).2.length ≤ msgs.length + 1 := by
  refine ⟨rfl, ?_, ?_⟩
  · rw [on_event_eq]
  · rw [on_event_eq]
    cases h : w.on_hover <;>
      by_cases hc : (lay.bounds.contains c && !w.state.is_hovered) = true <;>
        simp [h, hc, Option.toList]

/-- Claim C7: the only effects of `on_event` are the update of the widget's
own `is_hovered` state and an append to the message queue; every
configuration field is unchanged and the pre-existing queue is a prefix of
the result. -/
theorem on_event_frame {M σ ρ : Type} (w : HoverArea M σ ρ) (e : Event)
    (lay : Layout) (c : Point) (msgs : List M) (r : ρ)
    (clip : Option Clipboard) :
    (w.on_event e lay c msgs r clip).1.on_hover = w.on_hover ∧
    (w.on_event e lay c msgs r clip).1.width = w.width ∧
    (w.on_event e lay c msgs r clip).1.height = w.height ∧
    (w.on_event e lay c msgs r clip).1.min_width = w.min_width ∧
    (w.on_event e lay c msgs r clip).1.min_height = w.min_height ∧
    (w.on_event e lay c msgs r clip).1.padding = w.padding ∧
    (w.on_event e lay c msgs r clip).1.style = w.style ∧
    (w.on_event e lay c msgs r clip).1.content = w.content ∧
    ∃ emitted : List M,
      (w.on_event e lay c msgs r clip).2 = msgs ++ emitted ∧
        emitted.length ≤ 1 := by
  rw [on_event_eq]
  refine ⟨rfl, rfl, rfl, rfl, rfl, rfl, rfl, rfl, ?_⟩
  refine ⟨_, rfl, ?_⟩
  cases h : w.on_hover <;>
    by_cases hc : (lay.bounds.contains c && !w.state.is_hovered) = true <;>
      simp [h, hc, Option.toList]

/-- Claim C8: `on_event` with an absent clipboard always succeeds and behaves
exactly as with any present clipboard — the clipboard argument is never
consulted. -/
theorem clipboard_noop {M σ ρ : Type} (w : HoverArea M σ ρ) (e : Event)
    (lay : Layout) (c : Point) (msgs : List M) (r : ρ) (clip : Clipboard) :
    w.on_event e lay c msgs r (some clip) = w.on_event e lay c msgs r none :=
  rfl

end Iced

namespace Iced

/-- The root limits of the concrete scenario: width in [0,800], height in
[0,600]. -/
def scenarioLimits : Limits :=
  { min_width := 0, max_width := 800, min_height := 0, max_height := 600 }

/-- `sampleHover` with no on-hover message configured. -/
def sampleHoverDisabled : HoverArea Nat Unit Unit :=
  { sampleHover with on_hover := none }

/-- `sampleHover` with padding 0 instead of 10, all else equal. -/
def sampleHoverPad0 : HoverArea Nat Unit Unit :=
  { sampleHover with padding := 0 }

/-- Claim C3: `layout` narrows the incoming limits in the order minimums,
then declared lengths, then padding; lays the single child out against the
narrowed limits; positions it at exactly (padding, padding); and returns a
node whose size is the narrowed limits' resolution of the child's size plus
twice the padding per axis. -/
theorem hover_layout_algorithm {M σ ρ : Type} (w : HoverArea M σ ρ) (r : ρ)
    (limits : Limits) :
    let p : ℤ := (w.padding : ℤ)
    let narrowed := ((((limits.minWidth (w.min_width : ℤ)).minHeight
      (w.min_height : ℤ)).width w.width).height w.height).pad p
    let child := w.content.layout r narrowed
    ((w.layout r limits).children.map fun c => (c.bounds.x, c.bounds.y)) =
        [(p, p)] ∧
      ((w.layout r limits).children.map Node.size) = [child.size] ∧
      (w.layout r limits).size = (narrowed.resolve child.size).pad p := by
  refine ⟨rfl, rfl, rfl⟩

/-- Claim C4: with root limits [0,800]×[0,600], padding 10, min_width 0 and a
fixed 100×50 child, the layout node has size (120, 70) and its single child
has local bounds (10, 10, 100, 50). -/
theorem hover_layout_scenario :
    (sampleHover.layout () scenarioLimits).size =
        { width := 120, height := 70 } ∧
      ((sampleHover.layout () scenarioLimits).children.map fun c => c.bounds) =
        [{ x := 10, y := 10, width := 100, height := 50 }] := by
  decide

/-- Claim C5: the disabled flag passed to the renderer by `draw` is true
exactly when no on-hover message is configured, and in that case `on_event`
never appends to the message queue. -/
theorem disabled_flag {M σ ρ : Type} (w : HoverArea M σ ρ) (lay lay2 : Layout)
    (c c2 : Point) (e : Event) (msgs : List M) (r : ρ)
    (clip : Option Clipboard) :
    ((w.draw lay c).is_disabled = true ↔ w.on_hover = none) ∧
      (w.on_hover = none → (w.on_event e lay2 c2 msgs r clip).2 = msgs) := by
  constructor
  · simp [HoverArea.draw, Option.isNone_iff_eq_none]
  · intro h
    rw [on_event_eq]
    simp [h, Option.toList]

/-- Witness for C5: a concrete hover area with no on-hover message draws
disabled and emits nothing. -/
theorem disabled_flag_witness :
    ((sampleHoverDisabled.draw sampleLayout { x := 5, y := 5 }).is_disabled =
          true ↔ sampleHoverDisabled.on_hover = none) ∧
      (sampleHoverDisabled.on_event (Event.Mouse 0) sampleLayout
          { x := 5, y := 5 } [] () none).2 = [] :=
  ⟨(disabled_flag sampleHoverDisabled sampleLayout sampleLayout
      { x := 5, y := 5 } { x := 5, y := 5 } (Event.Mouse 0) [] () none).1,
    (disabled_flag sampleHoverDisabled sampleLayout sampleLayout
      { x := 5, y := 5 } { x := 5, y := 5 } (Event.Mouse 0) [] () none).2 rfl⟩

/-- Claim C6: `layout` is pure — its result is fully determined by the sizing
configuration and the child's layout at the narrowed limits; the local state,
the on-hover message, the style and the renderer identity are irrelevant, so
two calls with the same limits and a deterministic child agree. -/
theorem hover_layout_pure {M σ ρ : Type} (w1 w2 : HoverArea M σ ρ)
    (r1 r2 : ρ) (limits : Limits)
    (hw : w1.width = w2.width) (hh : w1.height = w2.height)
    (hmw : w1.min_width = w2.min_width) (hmh : w1.min_height = w2.min_height)
    (hp : w1.padding = w2.padding)
    (hc : ∀ l : Limits, w1.content.layout r1 l = w2.content.layout r2 l) :
    w1.layout r1 limits = w2.layout r2 limits := by
  simp only [HoverArea.layout, hw, hh, hmw, hmh, hp, hc]

/-- Witness for C6: two concrete hover areas differing only in hover state
and on-hover configuration lay out identically. -/
theorem hover_layout_pure_witness :
    sampleHoverDisabled.layout () scenarioLimits =
      sampleHover.layout () scenarioLimits :=
  hover_layout_pure sampleHoverDisabled sampleHover () () scenarioLimits
    rfl rfl rfl rfl rfl fun _ => rfl

/-- Claim C10: `HoverArea::new` returns a widget with no on-hover message,
shrink-to-content lengths, zero minimums, the renderer's default padding and
default style — and such a widget emits no message on any event. -/
theorem new_defaults {M σ ρ : Type} (R : RendererSpec σ) (s : State)
    (content : Element ρ) (e : Event) (lay : Layout) (c : Point)
    (msgs : List M) (r : ρ) (clip : Option Clipboard) :
    (HoverArea.new R s content : HoverArea M σ ρ).on_hover = none ∧
      (HoverArea.new R s content : HoverArea M σ ρ).width = Length.Shrink ∧
      (HoverArea.new R s content : HoverArea M σ ρ).height = Length.Shrink ∧
      (HoverArea.new R s content : HoverArea M σ ρ).min_width = 0 ∧
      (HoverArea.new R s content : HoverArea M σ ρ).min_height = 0 ∧
      (HoverArea.new R s content : HoverArea M σ ρ).padding =
        R.DEFAULT_PADDING ∧
      (HoverArea.new R s content : HoverArea M σ ρ).style = R.defaultStyle ∧
      ((HoverArea.new R s content : HoverArea M σ ρ).on_event e lay c msgs r
          clip).2 = msgs := by
  refine ⟨rfl, rfl, rfl, rfl, rfl, rfl, rfl, ?_⟩
  rw [on_event_eq]
  simp [HoverArea.new, Option.toList]

/-- Counterexample to claim C2: two hover areas that differ only in padding
(10 versus 0) produce the same structural hash from the same hasher state,
yet different layouts (size 120×70 versus 100×50) from the same limits —
`hash_layout` does not fold the padding (nor height or minimums) into the
hasher. -/
theorem hash_layout_incomplete_cex :
    sampleHover.hash_layout [] = sampleHoverPad0.hash_layout [] ∧
      (sampleHover.layout () scenarioLimits).size ≠
        (sampleHoverPad0.layout () scenarioLimits).size := by
  exact ⟨rfl, by decide⟩

/-- Claim C2 (amended): `hash_layout` folds exactly the declared width and
the child's hash into the hasher — height, padding and the minimums are not
folded in, so any two hover areas agreeing on width and on content hashing
hash identically regardless of the rest of their configuration. -/
theorem hash_layout_only_width {M σ ρ : Type} (w1 w2 : HoverArea M σ ρ)
    (h : Hasher) (hw : w1.width = w2.width)
    (hc : ∀ s : Hasher, w1.content.hash_layout s = w2.content.hash_layout s) :
    w1.hash_layout h = w1.content.hash_layout (h ++ w1.width.feed) ∧
      w1.hash_layout h = w2.hash_layout h := by
  exact ⟨rfl, by simp [HoverArea.hash_layout, hw, hc]⟩

/-- Witness for the amended C2: the padding-10 and padding-0 hover areas hash
identically from the empty hasher state. -/
theorem hash_layout_only_width_witness :
    sampleHover.hash_layout [] =
        sampleHover.content.hash_layout ([] ++ sampleHover.width.feed) ∧
      sampleHover.hash_layout [] = sampleHoverPad0.hash_layout [] :=
  hash_layout_only_width sampleHover sampleHoverPad0 [] rfl fun _ => rfl

end Iced
